import Mathlib

/-!
# AteliersWebServices: REST handlers over a document store

A shallow embedding of the route handlers of `REST-POSTGRES/server.js`
(with `REST-POSTGRES/schemas.js`) and of `REST-MANGODB/server.js`.

Modelling conventions.

* A JavaScript number is a `JsNumber`: a finite value, one of the two
  infinities, or NaN. The results of additions and multiplications are
  rounded to binary64 (`roundDouble`, round to nearest, ties to even). The
  sign of zero is not modelled.
* A request body is a `Json` value, the result of `express.json()`: its
  numbers are the doubles `JSON.parse` produced, so a literal beyond the
  range of a double is `posInf`. A response body is the JSON document that
  is sent: `JSON.stringify` writes a number that is not finite as `null`.
* A JavaScript string is a Lean `String`; its `.length` is the number of
  UTF-16 code units (`jsLength`).
* The validation library is zod 3 (the handlers read `error.errors`): the
  issues carry the attributes and the messages of that version.
* The three collections are lists of documents in insertion order.
* `REST-POSTGRES/server.js` imports `MongoClient` alone from the driver and
  converts identifiers with `new MongoClient.ObjectId(x)`. The class
  `MongoClient` has no member `ObjectId`, so that expression throws a
  `TypeError` for every argument (`newObjectId`).
* What the handlers obtain from the libraries at run time and the source
  does not determine is a field of `Env`: the outcome of each storage call
  of the request, `bcrypt.hash`, the e-mail grammar of the validation
  library, the conversion of a query string to a number and the clock. An
  outcome `Except.error msg` stands for a thrown exception with that
  message.
* A handler maps the environment, the store and the request to an
  `Outcome`: the store afterwards, the response, and the list of plaintexts
  that were handed to `bcrypt.hash`.
* Only the route handlers are modelled. The statements at module level
  (connection set-up, the driver walkthrough that ends
  `REST-MANGODB/server.js`) and the handlers no statement below is about
  (the read routes of products and orders, the game catalog, the
  `documents` demonstrations) are left out.
-/

set_option autoImplicit false
set_option maxRecDepth 20000

namespace AteliersWebServices

/-! ## Numbers -/

/-- A JavaScript number. -/
inductive JsNumber where
  | finite (q : ℚ)
  | posInf
  | negInf
  | nan
  deriving DecidableEq

/-- Rounding of a non-negative rational to the nearest integer, a tie going
to the even neighbour. -/
def roundHalfEven (x : ℚ) : ℤ :=
  let f := ⌊x⌋
  let r := x - f
  if r < 1 / 2 then f
  else if 1 / 2 < r then f + 1
  else if f % 2 = 0 then f else f + 1

/-- Rounding of an exact result to binary64: 53 significant bits, the
exponent of the leading bit at least -1022 (below it the spacing stays
2^-1074), overflow to an infinity from 2^1024 on. -/
def roundDouble (q : ℚ) : JsNumber :=
  if q = 0 then .finite 0
  else
    let a := |q|
    let e := max (Int.log 2 a) (-1022)
    let ulp : ℚ := 2 ^ (e - 52)
    let r : ℚ := roundHalfEven (a / ulp) * ulp
    if (2 : ℚ) ^ (1024 : ℤ) ≤ r then (if 0 < q then .posInf else .negInf)
    else if 0 < q then .finite r else .finite (-r)

namespace JsNumber

/-- The sum `a + b` of two numbers. -/
def add : JsNumber → JsNumber → JsNumber
  | finite a, finite b => roundDouble (a + b)
  | nan, _ => nan
  | _, nan => nan
  | posInf, negInf => nan
  | negInf, posInf => nan
  | posInf, _ => posInf
  | _, posInf => posInf
  | negInf, _ => negInf
  | _, negInf => negInf

/-- The negation `-a`. -/
def neg : JsNumber → JsNumber
  | finite a => finite (-a)
  | posInf => negInf
  | negInf => posInf
  | nan => nan

/-- The difference `a - b`. -/
def sub (a b : JsNumber) : JsNumber := add a (neg b)

/-- The sign of a number that is not NaN: -1, 0 or 1. -/
def sign : JsNumber → ℤ
  | finite a => if 0 < a then 1 else if a < 0 then -1 else 0
  | posInf => 1
  | negInf => -1
  | nan => 0

/-- The product `a * b` of two numbers. -/
def mul : JsNumber → JsNumber → JsNumber
  | finite a, finite b => roundDouble (a * b)
  | nan, _ => nan
  | _, nan => nan
  | a, b =>
    if sign a * sign b = 0 then nan
    else if 0 < sign a * sign b then posInf else negInf

/-- The comparison `a <= 0`. -/
def leZero : JsNumber → Bool
  | finite a => decide (a ≤ 0)
  | negInf => true
  | posInf => false
  | nan => false

/-- A number is strictly positive: the comparison `a > 0`. -/
def isPositive : JsNumber → Bool
  | finite a => decide (0 < a)
  | posInf => true
  | negInf => false
  | nan => false

end JsNumber

/-- The literal `1.2`: the double nearest to it, 5404319552844595 / 2^52. -/
def onePointTwo : JsNumber := .finite (5404319552844595 / 4503599627370496)

/-! ## JSON values -/

/-- A parsed JSON value. An object is the list of its properties. -/
inductive Json where
  | null
  | bool (b : Bool)
  | num (x : JsNumber)
  | str (s : String)
  | arr (xs : List Json)
  | obj (kvs : List (String × Json))

/-- A number as `JSON.stringify` writes it into a response: a number that
is not finite becomes `null`. -/
def jsonNumber : JsNumber → Json
  | .finite q => .num (.finite q)
  | _ => .null

/-- Property access `data[key]` on the properties of an object; `none` is
JavaScript's `undefined`. -/
def field (kvs : List (String × Json)) (key : String) : Option Json :=
  kvs.lookup key

/-- The `.length` of a JavaScript string: its number of UTF-16 code units. -/
def jsLength (s : String) : Nat :=
  (s.toList.map (fun c => if c.val < 0x10000 then 1 else 2)).sum

/-! ## The validation library (zod 3) -/

/-- One segment of the path of a validation issue. -/
inductive PathSeg where
  | key (k : String)
  | idx (i : Nat)
  deriving DecidableEq

/-- A validation issue, with its properties in the order in which the
library creates them. -/
inductive ZodIssue where
  /-- `code: "invalid_type"`, `expected`, `received`, `path`, `message`. -/
  | invalidType (expected received : String) (path : List PathSeg) (message : String)
  /-- `code: "too_small"`, `minimum`, `type`, `inclusive`, `exact`, `message`,
  `path`. -/
  | tooSmall (minimum : Nat) (type : String) (inclusive exact : Bool) (message : String)
      (path : List PathSeg)
  /-- `validation`, `code: "invalid_string"`, `message`, `path`. -/
  | invalidString (validation : String) (message : String) (path : List PathSeg)
  deriving DecidableEq

/-- The path of an issue. -/
def ZodIssue.path : ZodIssue → List PathSeg
  | .invalidType _ _ p _ => p
  | .tooSmall _ _ _ _ _ p => p
  | .invalidString _ _ p => p

/-- The value of a property of an issue. -/
inductive IssueVal where
  | str (s : String)
  | nat (n : Nat)
  | bool (b : Bool)
  | path (segs : List PathSeg)

/-- The properties of an issue, in order. -/
def issueProps : ZodIssue → List (String × IssueVal)
  | .invalidType expected received path message =>
    [("code", .str "invalid_type"), ("expected", .str expected), ("received", .str received),
     ("path", .path path), ("message", .str message)]
  | .tooSmall minimum type inclusive exact message path =>
    [("code", .str "too_small"), ("minimum", .nat minimum), ("type", .str type),
     ("inclusive", .bool inclusive), ("exact", .bool exact), ("message", .str message),
     ("path", .path path)]
  | .invalidString validation message path =>
    [("validation", .str validation), ("code", .str "invalid_string"),
     ("message", .str message), ("path", .path path)]

/-- The JSON form of a path segment. -/
def segJson : PathSeg → Json
  | .key k => .str k
  | .idx n => .num (.finite n)

/-- The JSON form of an issue, as an element of `error.errors`. -/
def issueJson (i : ZodIssue) : Json :=
  .obj ((issueProps i).map fun kv =>
    (kv.1, match kv.2 with
      | .str s => Json.str s
      | .nat n => Json.num (.finite n)
      | .bool b => Json.bool b
      | .path segs => Json.arr (segs.map segJson)))

/-- The result of `schema.safeParse(x)`. -/
abbrev ParseResult (α : Type) := Except (List ZodIssue) α

/-- The issues of a parse result (none for a success). -/
def issuesOf {α : Type} : ParseResult α → List ZodIssue
  | .ok _ => []
  | .error issues => issues

/-- The type name zod reports for a value (`getParsedType`). -/
def getParsedType : Option Json → String
  | none => "undefined"
  | some .null => "null"
  | some (.bool _) => "boolean"
  | some (.num .nan) => "nan"
  | some (.num _) => "number"
  | some (.str _) => "string"
  | some (.arr _) => "array"
  | some (.obj _) => "object"

/-- The `invalid_type` issue: "Required" for `undefined`, else the expected
and received type names. -/
def invalidType (expected : String) (path : List PathSeg) (v : Option Json) : ZodIssue :=
  .invalidType expected (getParsedType v) path
    (match v with
      | none => "Required"
      | some _ => "Expected " ++ expected ++ ", received " ++ getParsedType v)

/-- Schema `z.string()`. -/
def zString (path : List PathSeg) (v : Option Json) : ParseResult String :=
  match v with
  | some (.str s) => .ok s
  | _ => .error [invalidType "string" path v]

/-- Schema `z.string().min(n)`. -/
def zStringMin (n : Nat) (path : List PathSeg) (v : Option Json) : ParseResult String :=
  match v with
  | some (.str s) =>
    if jsLength s < n then
      .error [.tooSmall n "string" true false
                ("String must contain at least " ++ toString n ++ " character(s)") path]
    else .ok s
  | _ => .error [invalidType "string" path v]

/-- Schema `z.string().email()`; `isEmail` is the e-mail grammar of the
library. -/
def zStringEmail (isEmail : String → Bool) (path : List PathSeg) (v : Option Json) :
    ParseResult String :=
  match v with
  | some (.str s) =>
    if isEmail s then .ok s
    else .error [.invalidString "email" "Invalid email" path]
  | _ => .error [invalidType "string" path v]

/-- Schema `z.number().positive()`: NaN is not of type number, and a number
`<= 0` is too small. -/
def zNumberPositive (path : List PathSeg) (v : Option Json) : ParseResult JsNumber :=
  match v with
  | some (.num .nan) => .error [invalidType "number" path v]
  | some (.num x) =>
    if x.leZero then
      .error [.tooSmall 0 "number" false false "Number must be greater than 0" path]
    else .ok x
  | _ => .error [invalidType "number" path v]

/-- Schema `z.boolean().default(false)`. -/
def zBooleanDefaultFalse (path : List PathSeg) (v : Option Json) : ParseResult Bool :=
  match v with
  | none => .ok false
  | some (.bool b) => .ok b
  | _ => .error [invalidType "boolean" path v]

/-- The elements of `z.array(z.string())`, from index `i` on: the strings,
or the issues of every element that is not a string. -/
def zStringElems (path : List PathSeg) : Nat → List Json → ParseResult (List String)
  | _, [] => .ok []
  | i, x :: xs =>
    match zString (path ++ [.idx i]) (some x), zStringElems path (i + 1) xs with
    | .ok s, .ok ss => .ok (s :: ss)
    | r, rs => .error (issuesOf r ++ issuesOf rs)

/-- Schema `z.array(z.string())`. -/
def zArrayOfString (path : List PathSeg) (v : Option Json) : ParseResult (List String) :=
  match v with
  | some (.arr xs) => zStringElems path 0 xs
  | _ => .error [invalidType "array" path v]

/-! ### The message of a validation error

`error.message` of a `ZodError` is `JSON.stringify(issues, replacer, 2)`. -/

/-- The strings of a list joined with a separator. -/
def joinWith (sep : String) : List String → String
  | [] => ""
  | [x] => x
  | x :: y :: rest => x ++ sep ++ joinWith sep (y :: rest)

/-- One character inside a JSON string: the quote, the backslash and the
control characters are escaped. -/
def escapeChar (c : Char) : String :=
  if c.toNat = 34 then "\\\""
  else if c.toNat = 92 then "\\\\"
  else if c.toNat = 8 then "\\b"
  else if c.toNat = 12 then "\\f"
  else if c.toNat = 10 then "\\n"
  else if c.toNat = 13 then "\\r"
  else if c.toNat = 9 then "\\t"
  else if c.toNat < 32 then
    "\\u00" ++ String.singleton (Nat.digitChar (c.toNat / 16))
      ++ String.singleton (Nat.digitChar (c.toNat % 16))
  else String.singleton c

/-- A string as a JSON string literal. -/
def quote (s : String) : String :=
  "\"" ++ joinWith "" (s.toList.map escapeChar) ++ "\""

/-- The text of a path segment. -/
def segText : PathSeg → String
  | .key k => quote k
  | .idx n => toString n

/-- The text of the value of a property of an issue; the elements of a path
are indented by six spaces. -/
def valText : IssueVal → String
  | .str s => quote s
  | .nat n => toString n
  | .bool b => if b then "true" else "false"
  | .path [] => "[]"
  | .path (s :: segs) =>
    "[\n" ++ joinWith ",\n" ((s :: segs).map fun x => "      " ++ segText x) ++ "\n    ]"

/-- The text of one property of an issue, indented by four spaces. -/
def propText (kv : String × IssueVal) : String :=
  "    " ++ quote kv.1 ++ ": " ++ valText kv.2

/-- The text of an issue, indented by two spaces. -/
def issueText (i : ZodIssue) : String :=
  "  \x7b\n" ++ joinWith ",\n" ((issueProps i).map propText) ++ "\n  \x7d"

/-- The message of a `ZodError` with the given issues. -/
def zodMessage : List ZodIssue → String
  | [] => "[]"
  | i :: issues => "[\n" ++ joinWith ",\n" ((i :: issues).map issueText) ++ "\n]"

/-- The text `t` contains the text `s`. -/
def textContains (t s : String) : Prop := s.toList <:+: t.toList

instance (t s : String) : Decidable (textContains t s) := by
  unfold textContains
  infer_instance

/-! ## Schemas of `REST-POSTGRES/schemas.js` -/

/-- The data of `CreateProductSchema`. -/
structure CreateProduct where
  name : String
  about : String
  price : JsNumber

/-- `CreateProductSchema = ProductSchema.omit({ id: true })`: `name` and
`about` are `z.string()`, `price` is `z.number().positive()`. Unknown
properties are stripped; the issues of all properties are collected. -/
def CreateProductSchema (body : Json) : ParseResult CreateProduct :=
  match body with
  | .obj kvs =>
    match zString [.key "name"] (field kvs "name"),
          zString [.key "about"] (field kvs "about"),
          zNumberPositive [.key "price"] (field kvs "price") with
    | .ok name, .ok about, .ok price => .ok { name := name, about := about, price := price }
    | rn, ra, rp => .error (issuesOf rn ++ issuesOf ra ++ issuesOf rp)
  | other => .error [invalidType "object" [] (some other)]

/-- The data of `CreateUserSchema`. -/
structure CreateUser where
  username : String
  password : String
  email : String

/-- `CreateUserSchema = UserSchema.omit({ id: true })`: `username` is
`z.string()`, `password` is `z.string().min(6)`, `email` is
`z.string().email()`. -/
def CreateUserSchema (isEmail : String → Bool) (body : Json) : ParseResult CreateUser :=
  match body with
  | .obj kvs =>
    match zString [.key "username"] (field kvs "username"),
          zStringMin 6 [.key "password"] (field kvs "password"),
          zStringEmail isEmail [.key "email"] (field kvs "email") with
    | .ok username, .ok password, .ok email =>
      .ok { username := username, password := password, email := email }
    | ru, rp, re => .error (issuesOf ru ++ issuesOf rp ++ issuesOf re)
  | other => .error [invalidType "object" [] (some other)]

/-- The data of `CreateOrderSchema`. -/
structure CreateOrder where
  userId : String
  productIds : List String
  total : JsNumber
  payment : Bool

/-- `CreateOrderSchema = OrderSchema.omit({ createdAt: true, updatedAt: true })`:
the properties that remain are `userId` (`z.string()`), `productIds`
(`z.array(z.string())`), `total` (`z.number().positive()`) and `payment`
(`z.boolean().default(false)`). -/
def CreateOrderSchema (body : Json) : ParseResult CreateOrder :=
  match body with
  | .obj kvs =>
    match zString [.key "userId"] (field kvs "userId"),
          zArrayOfString [.key "productIds"] (field kvs "productIds"),
          zNumberPositive [.key "total"] (field kvs "total"),
          zBooleanDefaultFalse [.key "payment"] (field kvs "payment") with
    | .ok userId, .ok productIds, .ok total, .ok payment =>
      .ok { userId := userId, productIds := productIds, total := total, payment := payment }
    | ru, rp, rt, ry => .error (issuesOf ru ++ issuesOf rp ++ issuesOf rt ++ issuesOf ry)
  | other => .error [invalidType "object" [] (some other)]

/-! ## The document store and the run-time environment -/

/-- A storage identifier, in its hexadecimal text form. -/
abbrev ObjectId := String

/-- A document of the `products` collection. -/
structure Product where
  _id : ObjectId
  name : String
  about : String
  price : JsNumber

/-- A document of the `users` collection; `password` holds the digest. -/
structure User where
  _id : ObjectId
  username : String
  password : String
  email : String

/-- A document of the `orders` collection. `PUT /orders/:id` writes
`userId`, `productIds` and `payment` as received, so they are JSON values;
the timestamps are milliseconds. -/
structure Order where
  _id : ObjectId
  userId : Json
  productIds : List Json
  total : JsNumber
  payment : Json
  createdAt : Nat
  updatedAt : Nat

/-- The three collections, each in insertion order. -/
structure Db where
  products : List Product
  users : List User
  orders : List Order

/-- What a request obtains from the libraries at run time. A storage
outcome `Except.error msg` is a rejected call; the collection is then left
as it was (single-document operations are atomic). -/
structure Env where
  /-- The call `bcrypt.hash(password, saltRounds)`. -/
  bcryptHash : String → Except String String
  /-- The e-mail grammar of the validation library. -/
  isEmail : String → Bool
  /-- The outcome of `insertOne`: the identifier the storage layer assigns. -/
  insertOne : Except String ObjectId
  /-- The outcome of `find(...).toArray()`. -/
  find : Except String Unit
  /-- The outcome of `updateOne`. -/
  updateOne : Except String Unit
  /-- The outcome of `deleteOne`. -/
  deleteOne : Except String Unit
  /-- The conversion of a query string to a number by `page - 1`. -/
  toNumber : String → JsNumber
  /-- What the storage layer makes of a `skip` value that is not a natural
  number: the number of documents it skips, or a rejection. -/
  skip : JsNumber → Except String Nat
  /-- The message of the driver when `limit` is given a string. -/
  limitMessage : String
  /-- The value of `new Date()` during the request, in milliseconds. -/
  now : Nat

/-- An HTTP response. -/
structure Response where
  status : Nat
  body : Json

/-- The effect of handling one request: the store afterwards, the response
and the plaintexts handed to `bcrypt.hash`. -/
structure Outcome where
  db : Db
  res : Response
  hashed : List String := []

/-- The expression `new MongoClient.ObjectId(x)` of `REST-POSTGRES/server.js`.
Only `MongoClient` is imported from the driver and that class has no member
`ObjectId`: the callee is `undefined` and the expression throws a
`TypeError`, whatever `x` is. -/
def newObjectId (_x : Json) : Except String ObjectId :=
  .error "MongoClient.ObjectId is not a constructor"

/-- The conversion of every element of `productIds.map(id => new
MongoClient.ObjectId(id))`; the first failure is thrown. -/
def objectIds : List Json → Except String (List ObjectId)
  | [] => .ok []
  | x :: xs =>
    match newObjectId x with
    | .error e => .error e
    | .ok i =>
      match objectIds xs with
      | .error e => .error e
      | .ok is => .ok (i :: is)

/-- The JSON form of a caught exception that is not a validation error,
modelled as the empty object: the message and the stack of an `Error` are
not enumerable, and other properties an exception may carry are not
modelled. -/
def errorJson (_message : String) : Json := .obj []

/-- The JSON form of a product document. -/
def productJson (p : Product) : Json :=
  .obj [("_id", .str p._id), ("name", .str p.name), ("about", .str p.about),
        ("price", jsonNumber p.price)]

/-- The JSON form of a user document. -/
def userJson (u : User) : Json :=
  .obj [("_id", .str u._id), ("username", .str u.username), ("password", .str u.password),
        ("email", .str u.email)]

/-- The JSON form of an order document. -/
def orderJson (o : Order) : Json :=
  .obj [("_id", .str o._id), ("userId", o.userId), ("productIds", .arr o.productIds),
        ("total", jsonNumber o.total), ("payment", o.payment),
        ("createdAt", .num (.finite o.createdAt)), ("updatedAt", .num (.finite o.updatedAt))]

/-! ## Route handlers of `REST-POSTGRES/server.js` -/

namespace RestPostgres

/-- Handler of `POST /products`. -/
def postProducts (env : Env) (db : Db) (body : Json) : Outcome :=
  match CreateProductSchema body with
  | .error issues =>
    { db := db
      res := ⟨400, .obj [("message", .str "Données invalides"),
                         ("errors", .arr (issues.map issueJson))]⟩ }
  | .ok data =>
    match env.insertOne with
    | .ok insertedId =>
      { db := { db with products := db.products ++
                  [{ _id := insertedId, name := data.name, about := data.about,
                     price := data.price }] }
        res := ⟨201, .obj [("_id", .str insertedId), ("name", .str data.name),
                           ("about", .str data.about), ("price", jsonNumber data.price)]⟩ }
    | .error e =>
      { db := db
        res := ⟨500, .obj [("message", .str "Erreur serveur"), ("error", errorJson e)]⟩ }

/-- Handler of `DELETE /products/:id`: the identifier is converted, then
`deleteOne` removes the first document whose `_id` is the converted
identifier. -/
def deleteProduct (env : Env) (db : Db) (id : String) : Outcome :=
  match newObjectId (.str id) with
  | .error e =>
    { db := db
      res := ⟨500, .obj [("message", .str "Erreur du serveur"), ("error", errorJson e)]⟩ }
  | .ok oid =>
    match env.deleteOne with
    | .error e =>
      { db := db
        res := ⟨500, .obj [("message", .str "Erreur du serveur"), ("error", errorJson e)]⟩ }
    | .ok _ =>
      if db.products.any (fun p => p._id == oid) then
        { db := { db with products := db.products.eraseP (fun p => p._id == oid) }
          res := ⟨200, .obj [("message", .str "Produit supprimé avec succès")]⟩ }
      else
        { db := db, res := ⟨404, .obj [("message", .str "Produit non trouvé")]⟩ }

/-- Handler of `POST /users`. One `try` block holds the validation, the
hashing and the insert; its `catch` answers 400 with `error.message` of
whatever was thrown (for a validation error, the JSON text of the issues). -/
def postUsers (env : Env) (db : Db) (body : Json) : Outcome :=
  match CreateUserSchema env.isEmail body with
  | .error issues =>
    { db := db
      res := ⟨400, .obj [("error", .str "Données invalides"),
                         ("details", .str (zodMessage issues))]⟩ }
  | .ok parsedUser =>
    match env.bcryptHash parsedUser.password with
    | .error e =>
      { db := db
        res := ⟨400, .obj [("error", .str "Données invalides"), ("details", .str e)]⟩
        hashed := [parsedUser.password] }
    | .ok hashedPassword =>
      match env.insertOne with
      | .error e =>
        { db := db
          res := ⟨400, .obj [("error", .str "Données invalides"), ("details", .str e)]⟩
          hashed := [parsedUser.password] }
      | .ok insertedId =>
        { db := { db with users := db.users ++
                    [{ _id := insertedId, username := parsedUser.username,
                       password := hashedPassword, email := parsedUser.email }] }
          res := ⟨201, .obj [("message", .str "Utilisateur créé avec succès"),
                             ("user", .obj [("username", .str parsedUser.username),
                                            ("email", .str parsedUser.email)])]⟩
          hashed := [parsedUser.password] }

/-- The number of documents `skip(offset)` skips: `offset` itself when it
is a natural number, else what the storage layer makes of it. -/
def skipCount (env : Env) (offset : JsNumber) : Except String Nat :=
  match offset with
  | .finite q => if 0 ≤ q ∧ q.den = 1 then .ok q.num.toNat else env.skip offset
  | _ => env.skip offset

/-- Handler of `GET /users`. `page` and `limit` are the query strings when
present; the defaults are the numbers 1 and 10. The offset is `(page - 1) *
limit`. A `limit` taken from the query is a string, which the driver's
`limit` rejects; the `catch` answers 500. -/
def getUsers (env : Env) (db : Db) (page limit : Option String) : Outcome :=
  match limit with
  | some _ =>
    { db := db
      res := ⟨500, .obj [("error", .str "Erreur serveur"), ("details", .str env.limitMessage)]⟩ }
  | none =>
    let pageNumber : JsNumber := match page with
      | none => .finite 1
      | some s => env.toNumber s
    let offset := JsNumber.mul (JsNumber.sub pageNumber (.finite 1)) (.finite 10)
    match skipCount env offset with
    | .error e =>
      { db := db, res := ⟨500, .obj [("error", .str "Erreur serveur"), ("details", .str e)]⟩ }
    | .ok n =>
      match env.find with
      | .error e =>
        { db := db
          res := ⟨500, .obj [("error", .str "Erreur serveur"), ("details", .str e)]⟩ }
      | .ok _ =>
        { db := db, res := ⟨200, .arr (((db.users.drop n).take 10).map userJson)⟩ }

/-- Handler of `POST /orders`. One `try` block holds the validation, the
conversion of the identifiers, the product lookup and the insert; its
`catch` answers 400 with `error.errors` (the issues of a validation error,
absent for any other exception). The response of a success is
`result.ops[0]`, the inserted document. -/
def postOrders (env : Env) (db : Db) (body : Json) : Outcome :=
  match CreateOrderSchema body with
  | .error issues =>
    { db := db
      res := ⟨400, .obj [("message", .str "Données invalides"),
                         ("error", .arr (issues.map issueJson))]⟩ }
  | .ok parsedOrder =>
    match objectIds (parsedOrder.productIds.map Json.str) with
    | .error _ => { db := db, res := ⟨400, .obj [("message", .str "Données invalides")]⟩ }
    | .ok ids =>
      match env.find with
      | .error _ => { db := db, res := ⟨400, .obj [("message", .str "Données invalides")]⟩ }
      | .ok _ =>
        let products := db.products.filter (fun p => p._id ∈ ids)
        let total :=
          JsNumber.mul (products.foldl (fun sum product => JsNumber.add sum product.price)
            (.finite 0)) onePointTwo
        match env.insertOne with
        | .error _ => { db := db, res := ⟨400, .obj [("message", .str "Données invalides")]⟩ }
        | .ok insertedId =>
          let order : Order :=
            { _id := insertedId, userId := .str parsedOrder.userId,
              productIds := parsedOrder.productIds.map Json.str, total := total,
              payment := .bool false, createdAt := env.now, updatedAt := env.now }
          { db := { db with orders := db.orders ++ [order] }
            res := ⟨201, orderJson order⟩ }

/-- The `$set` of `PUT /orders/:id` applied to the first order whose `_id`
is `oid`. -/
def setOrder (oid : ObjectId) (userId : Json) (productIds : List Json) (total : JsNumber)
    (payment : Json) (updatedAt : Nat) : List Order → List Order
  | [] => []
  | o :: os =>
    if o._id == oid then
      { o with userId := userId, productIds := productIds, total := total,
               payment := payment, updatedAt := updatedAt } :: os
    else o :: setOrder oid userId productIds total payment updatedAt os

/-- Handler of `PUT /orders/:id`. The body is not validated: the three
properties are read from it as they are (a missing one is stored as
`null`), and `productIds.map` throws unless `productIds` is an array. The
identifiers of the products are converted before the lookup, the identifier
of the route before `updateOne`. The response of a success is the
acknowledgement of `updateOne`, of which `acknowledged` and `matchedCount`
are modelled. -/
def putOrder (env : Env) (db : Db) (id : String) (body : Json) : Outcome :=
  let kvs := match body with
    | .obj kvs => kvs
    | _ => []
  let userId := field kvs "userId"
  let productIds := field kvs "productIds"
  let payment := field kvs "payment"
  match productIds with
  | some (.arr pids) =>
    match objectIds pids with
    | .error _ => { db := db, res := ⟨400, .obj [("message", .str "Données invalides")]⟩ }
    | .ok ids =>
      match env.find with
      | .error _ => { db := db, res := ⟨400, .obj [("message", .str "Données invalides")]⟩ }
      | .ok _ =>
        let products := db.products.filter (fun p => p._id ∈ ids)
        let total :=
          JsNumber.mul (products.foldl (fun sum product => JsNumber.add sum product.price)
            (.finite 0)) onePointTwo
        match newObjectId (.str id) with
        | .error _ => { db := db, res := ⟨400, .obj [("message", .str "Données invalides")]⟩ }
        | .ok oid =>
          match env.updateOne with
          | .error _ =>
            { db := db, res := ⟨400, .obj [("message", .str "Données invalides")]⟩ }
          | .ok _ =>
            if db.orders.any (fun o => o._id == oid) then
              let orders :=
                setOrder oid (userId.getD .null) pids total (payment.getD .null) env.now
                  db.orders
              { db := { db with orders := orders }
                res := ⟨200, .obj [("acknowledged", .bool true),
                                   ("matchedCount", .num (.finite 1))]⟩ }
            else
              { db := db, res := ⟨404, .obj [("message", .str "Commande non trouvée")]⟩ }
  | _ => { db := db, res := ⟨400, .obj [("message", .str "Données invalides")]⟩ }

/-- Handler of `DELETE /orders/:id`. -/
def deleteOrder (env : Env) (db : Db) (id : String) : Outcome :=
  match newObjectId (.str id) with
  | .error e =>
    { db := db
      res := ⟨500, .obj [("message", .str "Erreur du serveur"), ("error", errorJson e)]⟩ }
  | .ok oid =>
    match env.deleteOne with
    | .error e =>
      { db := db
        res := ⟨500, .obj [("message", .str "Erreur du serveur"), ("error", errorJson e)]⟩ }
    | .ok _ =>
      if db.orders.any (fun o => o._id == oid) then
        { db := { db with orders := db.orders.eraseP (fun o => o._id == oid) }
          res := ⟨200, .obj [("message", .str "Commande supprimée avec succès")]⟩ }
      else
        { db := db, res := ⟨404, .obj [("message", .str "Commande non trouvée")]⟩ }

end RestPostgres

/-! ## Route handler of `REST-MANGODB/server.js` -/

namespace RestMangodb

/-- `ProductSchema` of `REST-MANGODB/server.js`: `_id`, `name` and `about`
are `z.string()`, `price` is `z.number().positive()`. -/
def ProductSchema (v : Json) : ParseResult Product :=
  match v with
  | .obj kvs =>
    match zString [.key "_id"] (field kvs "_id"),
          zString [.key "name"] (field kvs "name"),
          zString [.key "about"] (field kvs "about"),
          zNumberPositive [.key "price"] (field kvs "price") with
    | .ok id, .ok name, .ok about, .ok price =>
      .ok { _id := id, name := name, about := about, price := price }
    | ri, rn, ra, rp => .error (issuesOf ri ++ issuesOf rn ++ issuesOf ra ++ issuesOf rp)
  | other => .error [invalidType "object" [] (some other)]

/-- `CreateProductSchema = ProductSchema.omit({ _id: true })`. -/
def CreateProductSchema (body : Json) : ParseResult CreateProduct :=
  match body with
  | .obj kvs =>
    match zString [.key "name"] (field kvs "name"),
          zString [.key "about"] (field kvs "about"),
          zNumberPositive [.key "price"] (field kvs "price") with
    | .ok name, .ok about, .ok price => .ok { name := name, about := about, price := price }
    | rn, ra, rp => .error (issuesOf rn ++ issuesOf ra ++ issuesOf rp)
  | other => .error [invalidType "object" [] (some other)]

/-- Handler of `POST /products`: after the insert, the product with its
identifier is validated against `ProductSchema` before it is sent. -/
def postProducts (env : Env) (db : Db) (body : Json) : Outcome :=
  match CreateProductSchema body with
  | .ok data =>
    match env.insertOne with
    | .ok insertedId =>
      let db1 : Db :=
        { db with products := db.products ++
            [{ _id := insertedId, name := data.name, about := data.about,
               price := data.price }] }
      match ProductSchema (.obj [("_id", .str insertedId), ("name", .str data.name),
                                 ("about", .str data.about), ("price", .num data.price)]) with
      | .ok validatedProduct => { db := db1, res := ⟨201, productJson validatedProduct⟩ }
      | .error _ =>
        { db := db1
          res := ⟨500, .obj [("error", .str "Failed to validate inserted product")]⟩ }
    | .error _ =>
      { db := db, res := ⟨500, .obj [("error", .str "Failed to create product")]⟩ }
  | .error issues =>
    { db := db
      res := ⟨400, .obj [("success", .bool false),
                         ("error", .obj [("issues", .arr (issues.map issueJson)),
                                         ("name", .str "ZodError")])]⟩ }

end RestMangodb

/-! ## Reading a request body and fixtures -/

/-- The property `body[key]` of a request body; a body that is not an
object has none of the properties the schemas read. -/
def prop (body : Json) (key : String) : Option Json :=
  match body with
  | .obj kvs => field kvs key
  | _ => none

/-- An environment in which every storage call succeeds. -/
def okEnv : Env :=
  { bcryptHash := fun _ => .ok "$2b$10$digest"
    isEmail := fun s => s.toList.contains '@'
    insertOne := .ok "65f000000000000000000003"
    find := .ok ()
    updateOne := .ok ()
    deleteOne := .ok ()
    toNumber := fun s => match s.toNat? with
      | some n => .finite n
      | none => .nan
    skip := fun _ => .error "skip value rejected"
    limitMessage := "limit requires an integer"
    now := 1700000000000 }

/-- The products "Book" (price 10) and "Pen" (price 2) of the worked example. -/
def bookAndPen : List Product :=
  [{ _id := "65f000000000000000000001", name := "Book", about := "Paper",
     price := .finite 10 },
   { _id := "65f000000000000000000002", name := "Pen", about := "Ink", price := .finite 2 }]

/-- A store holding the two products and nothing else. -/
def shopDb : Db := { products := bookAndPen, users := [], orders := [] }

/-- The request body of the worked example: the product "Book". -/
def bookBody : Json :=
  .obj [("name", .str "Book"), ("about", .str "Paper"), ("price", .num (.finite 10))]

/-- The product "Book" with a price of 0. -/
def freeBookBody : Json :=
  .obj [("name", .str "Book"), ("about", .str "Paper"), ("price", .num (.finite 0))]

/-- The product "Book" with a price literal beyond the range of a double
(such as `1e400`), which `JSON.parse` reads as `Infinity`. -/
def infinitePriceBody : Json :=
  .obj [("name", .str "Book"), ("about", .str "Paper"), ("price", .num .posInf)]

/-- A product body whose `name` and `about` are both the empty string. -/
def emptyNameBody : Json :=
  .obj [("name", .str ""), ("about", .str ""), ("price", .num (.finite 1))]

/-- The request body of the worked example with a password of five
characters and no e-mail. -/
def shortPasswordBody : Json :=
  .obj [("username", .str "a"), ("password", .str "short")]

/-- A request body that is the empty array. -/
def arrayBody : Json := .arr []

/-- The order body of the worked example: `userId` "u1" and the
identifiers of "Book" and "Pen"; no `total`. -/
def exampleOrderBody : Json :=
  .obj [("userId", .str "u1"),
        ("productIds", .arr [.str "65f000000000000000000001",
                             .str "65f000000000000000000002"])]

/-- The order body of the worked example with a `total` of 1 added. -/
def exampleOrderBodyWithTotal : Json :=
  .obj [("userId", .str "u1"),
        ("productIds", .arr [.str "65f000000000000000000001",
                             .str "65f000000000000000000002"]),
        ("total", .num (.finite 1))]

/-- An order body with no product and a `total` of 1. -/
def emptyOrderBody : Json :=
  .obj [("userId", .str "u1"), ("productIds", .arr []), ("total", .num (.finite 1))]

/-- A store with the two products and one order without products, created
at time 1000. -/
def orderDb : Db :=
  { products := bookAndPen
    users := []
    orders := [{ _id := "65f00000000000000000000a", userId := .str "u1",
                 productIds := [], total := .finite 0,
                 payment := .bool false, createdAt := 1000, updatedAt := 1000 }] }

/-- A `PUT /orders/:id` body naming "Book" and "Pen". -/
def putBody : Json :=
  .obj [("userId", .str "u1"),
        ("productIds", .arr [.str "65f000000000000000000001",
                             .str "65f000000000000000000002"]),
        ("payment", .bool true)]

/-- A store with one user whose stored password field is `digest`. -/
def userDb (digest : String) : Db :=
  { products := []
    users := [{ _id := "65f00000000000000000000b", username := "alice", password := digest,
                email := "alice@example.org" }]
    orders := [] }

/-- A user body that passes `CreateUserSchema`. -/
def validUserBody : Json :=
  .obj [("username", .str "alice"), ("password", .str "secret1"),
        ("email", .str "alice@example.org")]

/-- The environment `okEnv` with a failing `insertOne`. -/
def insertFailsEnv : Env := { okEnv with insertOne := .error "connection lost" }

/-- The environment `okEnv` with a failing `find`. -/
def findFailsEnv : Env := { okEnv with find := .error "connection lost" }

/-- The environment `okEnv` with a failing `updateOne`. -/
def updateFailsEnv : Env := { okEnv with updateOne := .error "connection lost" }

/-- The environment `okEnv` with a failing `deleteOne`. -/
def deleteFailsEnv : Env := { okEnv with deleteOne := .error "connection lost" }

/-! ## Lemmas on numbers and on the validation layer -/

theorem roundDouble_zero : roundDouble 0 = .finite 0 := by
  simp [roundDouble]

theorem mul_zero_finite (c : ℚ) : JsNumber.mul (.finite 0) (.finite c) = .finite 0 := by
  simp [JsNumber.mul, roundDouble_zero]

theorem zString_ok_iff (path : List PathSeg) (v : Option Json) (s : String) :
    zString path v = .ok s ↔ v = some (.str s) := by
  unfold zString
  split <;> simp_all

theorem leZero_eq_false_iff (x : JsNumber) (hx : x ≠ .nan) :
    x.leZero = false ↔ x.isPositive = true := by
  cases x with
  | finite q => simp [JsNumber.leZero, JsNumber.isPositive]
  | posInf => simp [JsNumber.leZero, JsNumber.isPositive]
  | negInf => simp [JsNumber.leZero, JsNumber.isPositive]
  | nan => exact absurd rfl hx

theorem zNumberPositive_num (path : List PathSeg) (x : JsNumber) (hpos : x.isPositive = true) :
    zNumberPositive path (some (.num x)) = .ok x := by
  cases x with
  | finite q =>
    have : ¬ q ≤ 0 := by simpa [JsNumber.isPositive] using hpos
    simp [zNumberPositive, JsNumber.leZero, this]
  | posInf => simp [zNumberPositive, JsNumber.leZero]
  | negInf => simp [JsNumber.isPositive] at hpos
  | nan => simp [JsNumber.isPositive] at hpos

theorem zNumberPositive_ok_iff (path : List PathSeg) (v : Option Json) (x : JsNumber) :
    zNumberPositive path v = .ok x ↔ v = some (.num x) ∧ x.isPositive = true := by
  constructor
  · intro h
    unfold zNumberPositive at h
    split at h
    · simp at h
    · rename_i y hy
      split at h
      · simp at h
      · rename_i hle
        simp only [Except.ok.injEq] at h
        subst h
        refine ⟨rfl, ?_⟩
        have hne : y ≠ .nan := fun hnan => hy (by rw [hnan])
        exact (leZero_eq_false_iff y hne).mp (by simpa using hle)
    · simp at h
  · rintro ⟨rfl, hpos⟩
    exact zNumberPositive_num path x hpos

theorem createProductSchema_ok (kvs : List (String × Json)) (name about : String)
    (price : JsNumber)
    (hn : field kvs "name" = some (.str name)) (ha : field kvs "about" = some (.str about))
    (hp : field kvs "price" = some (.num price)) (hpos : price.isPositive = true) :
    CreateProductSchema (.obj kvs) = .ok { name := name, about := about, price := price } := by
  simp [CreateProductSchema, hn, ha, hp, zString, zNumberPositive_num _ price hpos]

theorem createProductSchema_error (body : Json)
    (h : (∀ x, prop body "price" = some (.num x) → x.isPositive = false) ∨
         (∀ s, prop body "name" ≠ some (.str s)) ∨
         (∀ s, prop body "about" ≠ some (.str s))) :
    ∃ issues, CreateProductSchema body = .error issues := by
  cases body with
  | obj kvs =>
    simp only [prop] at h
    cases hn : zString [.key "name"] (field kvs "name") with
    | error e => cases ha : zString [.key "about"] (field kvs "about") <;>
        cases hp : zNumberPositive [.key "price"] (field kvs "price") <;>
        simp [CreateProductSchema, hn, ha, hp]
    | ok name =>
      cases ha : zString [.key "about"] (field kvs "about") with
      | error e => cases hp : zNumberPositive [.key "price"] (field kvs "price") <;>
          simp [CreateProductSchema, hn, ha, hp]
      | ok about =>
        cases hp : zNumberPositive [.key "price"] (field kvs "price") with
        | error e => simp [CreateProductSchema, hn, ha, hp]
        | ok price =>
          exfalso
          rw [zString_ok_iff] at hn ha
          rw [zNumberPositive_ok_iff] at hp
          rcases h with h | h | h
          · have := h price hp.1
            rw [hp.2] at this
            exact Bool.noConfusion this
          · exact h name hn
          · exact h about ha
  | null => exact ⟨_, rfl⟩
  | bool b => exact ⟨_, rfl⟩
  | num q => exact ⟨_, rfl⟩
  | str s => exact ⟨_, rfl⟩
  | arr xs => exact ⟨_, rfl⟩

theorem mangodb_createProductSchema_eq (body : Json) :
    RestMangodb.CreateProductSchema body = CreateProductSchema body := by
  cases body <;> rfl

theorem mangodb_productSchema_ok (id name about : String) (price : JsNumber)
    (hpos : price.isPositive = true) :
    RestMangodb.ProductSchema (.obj [("_id", .str id), ("name", .str name),
        ("about", .str about), ("price", .num price)])
      = .ok { _id := id, name := name, about := about, price := price } := by
  simp [RestMangodb.ProductSchema, field, List.lookup, zString,
    zNumberPositive_num _ price hpos]

theorem createProductSchema_body_ok (body : Json) (name about : String) (price : JsNumber)
    (hn : prop body "name" = some (.str name)) (ha : prop body "about" = some (.str about))
    (hp : prop body "price" = some (.num price)) (hpos : price.isPositive = true) :
    CreateProductSchema body = .ok { name := name, about := about, price := price } := by
  cases body with
  | obj kvs => exact createProductSchema_ok kvs name about price hn ha hp hpos
  | null => simp [prop] at hn
  | bool b => simp [prop] at hn
  | num q => simp [prop] at hn
  | str s => simp [prop] at hn
  | arr xs => simp [prop] at hn

theorem postgres_postProducts_created (env : Env) (db : Db) (body : Json)
    (name about : String) (price : JsNumber) (id : ObjectId)
    (hn : prop body "name" = some (.str name)) (ha : prop body "about" = some (.str about))
    (hp : prop body "price" = some (.num price)) (hpos : price.isPositive = true)
    (hins : env.insertOne = .ok id) :
    (RestPostgres.postProducts env db body).res
        = ⟨201, .obj [("_id", .str id), ("name", .str name), ("about", .str about),
                      ("price", jsonNumber price)]⟩ ∧
    (RestPostgres.postProducts env db body).db
        = { db with products := db.products ++
              [{ _id := id, name := name, about := about, price := price }] } := by
  simp [RestPostgres.postProducts, createProductSchema_body_ok body name about price hn ha hp hpos,
    hins]

theorem mangodb_postProducts_created (env : Env) (db : Db) (body : Json)
    (name about : String) (price : JsNumber) (id : ObjectId)
    (hn : prop body "name" = some (.str name)) (ha : prop body "about" = some (.str about))
    (hp : prop body "price" = some (.num price)) (hpos : price.isPositive = true)
    (hins : env.insertOne = .ok id) :
    (RestMangodb.postProducts env db body).res
        = ⟨201, .obj [("_id", .str id), ("name", .str name), ("about", .str about),
                      ("price", jsonNumber price)]⟩ ∧
    (RestMangodb.postProducts env db body).db
        = { db with products := db.products ++
              [{ _id := id, name := name, about := about, price := price }] } := by
  simp [RestMangodb.postProducts, mangodb_createProductSchema_eq,
    createProductSchema_body_ok body name about price hn ha hp hpos, hins,
    mangodb_productSchema_ok id name about price hpos, productJson]

/-! ## Product creation -/

/-- C5: a body whose `price` is missing, not a number or not strictly
positive, or whose `name` or `about` is missing or not a string, is answered
400 by `POST /products` of both servers, and the store is left as it was,
whatever the storage layer would have answered. -/
theorem postProducts_invalid_rejected (env : Env) (db : Db) (body : Json)
    (h : (∀ x, prop body "price" = some (.num x) → x.isPositive = false) ∨
         (∀ s, prop body "name" ≠ some (.str s)) ∨
         (∀ s, prop body "about" ≠ some (.str s))) :
    (RestPostgres.postProducts env db body).res.status = 400 ∧
    (RestPostgres.postProducts env db body).db = db ∧
    (RestMangodb.postProducts env db body).res.status = 400 ∧
    (RestMangodb.postProducts env db body).db = db := by
  obtain ⟨issues, hi⟩ := createProductSchema_error body h
  simp [RestPostgres.postProducts, RestMangodb.postProducts, mangodb_createProductSchema_eq, hi]

/-- Witness of C5: the body with `price` 0 on the two-product store. -/
theorem postProducts_invalid_rejected_witness :
    ((∀ x, prop freeBookBody "price" = some (.num x) → x.isPositive = false) ∨
      (∀ s, prop freeBookBody "name" ≠ some (.str s)) ∨
      (∀ s, prop freeBookBody "about" ≠ some (.str s))) ∧
    (RestPostgres.postProducts okEnv shopDb freeBookBody).res.status = 400 ∧
    (RestPostgres.postProducts okEnv shopDb freeBookBody).db = shopDb ∧
    (RestMangodb.postProducts okEnv shopDb freeBookBody).res.status = 400 ∧
    (RestMangodb.postProducts okEnv shopDb freeBookBody).db = shopDb :=
  have hyp : ∀ x, prop freeBookBody "price" = some (.num x) → x.isPositive = false := by
    intro x hx
    simp [freeBookBody, prop, field, List.lookup] at hx
    subst hx
    decide
  ⟨Or.inl hyp, postProducts_invalid_rejected okEnv shopDb freeBookBody (Or.inl hyp)⟩

/-- C6, counterexample: the body of "Book" whose `price` literal overflows
to `Infinity` has a strictly positive numeric price and passes validation;
both servers answer 201 and insert the product, and the response carries
`price: null`, not the submitted price. -/
theorem postProducts_infinite_price_echoed_null :
    prop infinitePriceBody "price" = some (.num .posInf) ∧
    JsNumber.isPositive .posInf = true ∧
    (RestPostgres.postProducts okEnv shopDb infinitePriceBody).res
      = ⟨201, .obj [("_id", .str "65f000000000000000000003"), ("name", .str "Book"),
                    ("about", .str "Paper"), ("price", .null)]⟩ ∧
    (RestMangodb.postProducts okEnv shopDb infinitePriceBody).res
      = ⟨201, .obj [("_id", .str "65f000000000000000000003"), ("name", .str "Book"),
                    ("about", .str "Paper"), ("price", .null)]⟩ ∧
    (RestPostgres.postProducts okEnv shopDb infinitePriceBody).db.products
      = shopDb.products ++
          [{ _id := "65f000000000000000000003", name := "Book", about := "Paper",
             price := .posInf }] := by
  have hp := postgres_postProducts_created okEnv shopDb infinitePriceBody "Book" "Paper"
    .posInf "65f000000000000000000003" rfl rfl rfl rfl rfl
  have hm := mangodb_postProducts_created okEnv shopDb infinitePriceBody "Book" "Paper"
    .posInf "65f000000000000000000003" rfl rfl rfl rfl rfl
  refine ⟨rfl, rfl, ?_, ?_, ?_⟩
  · rw [hp.1]; rfl
  · rw [hm.1]; rfl
  · rw [hp.2]

/-- C6, amended: a body with a string `name`, a string `about` and a
strictly positive numeric `price` is answered 201 by `POST /products` of
both servers when the insert succeeds; the response carries the identifier
assigned by the storage layer, the submitted `name` and `about`, and the
price as JSON writes it, which is the submitted price whenever that price
is finite (and `null` when it is `Infinity`); the `products` collection
gains exactly the one product with the three submitted fields. -/
theorem postProducts_valid_created (env : Env) (db : Db) (body : Json)
    (name about : String) (price : JsNumber) (id : ObjectId)
    (hn : prop body "name" = some (.str name)) (ha : prop body "about" = some (.str about))
    (hp : prop body "price" = some (.num price)) (hpos : price.isPositive = true)
    (hins : env.insertOne = .ok id) :
    (RestPostgres.postProducts env db body).res
        = ⟨201, .obj [("_id", .str id), ("name", .str name), ("about", .str about),
                      ("price", jsonNumber price)]⟩ ∧
    (RestPostgres.postProducts env db body).db
        = { db with products := db.products ++
              [{ _id := id, name := name, about := about, price := price }] } ∧
    (RestMangodb.postProducts env db body).res
        = ⟨201, .obj [("_id", .str id), ("name", .str name), ("about", .str about),
                      ("price", jsonNumber price)]⟩ ∧
    (RestMangodb.postProducts env db body).db
        = { db with products := db.products ++
              [{ _id := id, name := name, about := about, price := price }] } ∧
    (price ≠ .posInf → jsonNumber price = .num price) ∧
    (price = .posInf → jsonNumber price = .null) := by
  refine ⟨(postgres_postProducts_created env db body name about price id hn ha hp hpos hins).1,
   (postgres_postProducts_created env db body name about price id hn ha hp hpos hins).2,
   (mangodb_postProducts_created env db body name about price id hn ha hp hpos hins).1,
   (mangodb_postProducts_created env db body name about price id hn ha hp hpos hins).2, ?_, ?_⟩
  · intro hfin
    cases price with
    | finite q => rfl
    | posInf => exact absurd rfl hfin
    | negInf => simp [JsNumber.isPositive] at hpos
    | nan => simp [JsNumber.isPositive] at hpos
  · intro hinf
    subst hinf
    rfl

/-- Witness of the amended C6: the product "Book" of the worked example,
whose price 10 is finite. -/
theorem postProducts_valid_created_witness :
    (prop bookBody "name" = some (.str "Book") ∧ prop bookBody "about" = some (.str "Paper") ∧
      prop bookBody "price" = some (.num (.finite 10)) ∧
      JsNumber.isPositive (.finite 10) = true ∧
      okEnv.insertOne = .ok "65f000000000000000000003") ∧
    ((RestPostgres.postProducts okEnv shopDb bookBody).res
        = ⟨201, .obj [("_id", .str "65f000000000000000000003"), ("name", .str "Book"),
                      ("about", .str "Paper"), ("price", jsonNumber (.finite 10))]⟩ ∧
     (RestPostgres.postProducts okEnv shopDb bookBody).db
        = { shopDb with products := shopDb.products ++
              [{ _id := "65f000000000000000000003", name := "Book", about := "Paper",
                 price := .finite 10 }] } ∧
     (RestMangodb.postProducts okEnv shopDb bookBody).res
        = ⟨201, .obj [("_id", .str "65f000000000000000000003"), ("name", .str "Book"),
                      ("about", .str "Paper"), ("price", jsonNumber (.finite 10))]⟩ ∧
     (RestMangodb.postProducts okEnv shopDb bookBody).db
        = { shopDb with products := shopDb.products ++
              [{ _id := "65f000000000000000000003", name := "Book", about := "Paper",
                 price := .finite 10 }] } ∧
     (JsNumber.finite 10 ≠ .posInf → jsonNumber (.finite 10) = .num (.finite 10)) ∧
     (JsNumber.finite 10 = .posInf → jsonNumber (.finite 10) = .null)) :=
  ⟨⟨rfl, rfl, rfl, by decide, rfl⟩,
   postProducts_valid_created okEnv shopDb bookBody "Book" "Paper" (.finite 10)
     "65f000000000000000000003" rfl rfl rfl (by decide) rfl⟩

/-- C7, counterexample: the body whose `name` and `about` are the empty
string passes `CreateProductSchema`; `POST /products` answers 201 and
inserts the product. -/
theorem postProducts_empty_name_accepted :
    CreateProductSchema emptyNameBody = .ok { name := "", about := "", price := .finite 1 } ∧
    (RestPostgres.postProducts okEnv shopDb emptyNameBody).res.status = 201 ∧
    (RestPostgres.postProducts okEnv shopDb emptyNameBody).db.products
      = shopDb.products ++
          [{ _id := "65f000000000000000000003", name := "", about := "",
             price := .finite 1 }] := by
  have h := postgres_postProducts_created okEnv shopDb emptyNameBody "" "" (.finite 1)
    "65f000000000000000000003" rfl rfl rfl (by decide) rfl
  refine ⟨createProductSchema_body_ok emptyNameBody "" "" (.finite 1) rfl rfl rfl (by decide),
    ?_, ?_⟩
  · rw [h.1]
  · rw [h.2]

/-- C7, amended: product validation requires `name` and `about` to be
strings and accepts the empty string. A body whose `name` or `about` is the
empty string, the other one a string and `price` a strictly positive number,
passes `CreateProductSchema`; `POST /products` then answers 201 and inserts
the product when the insert succeeds, and answers 500 without inserting
when it fails. -/
theorem postProducts_empty_string_valid (env : Env) (db : Db) (body : Json)
    (name about : String) (price : JsNumber)
    (hn : prop body "name" = some (.str name)) (ha : prop body "about" = some (.str about))
    (hp : prop body "price" = some (.num price)) (hpos : price.isPositive = true)
    (_hempty : name = "" ∨ about = "") :
    CreateProductSchema body = .ok { name := name, about := about, price := price } ∧
    (∀ id, env.insertOne = .ok id →
      (RestPostgres.postProducts env db body).res.status = 201 ∧
      (RestPostgres.postProducts env db body).db.products
        = db.products ++ [{ _id := id, name := name, about := about, price := price }]) ∧
    (∀ e, env.insertOne = .error e →
      (RestPostgres.postProducts env db body).res.status = 500 ∧
      (RestPostgres.postProducts env db body).db = db) := by
  have hok := createProductSchema_body_ok body name about price hn ha hp hpos
  refine ⟨hok, ?_, ?_⟩
  · intro id hins
    have h := postgres_postProducts_created env db body name about price id hn ha hp hpos hins
    rw [h.1, h.2]
    exact ⟨rfl, rfl⟩
  · intro e hins
    simp [RestPostgres.postProducts, hok, hins]

/-- Witness of the amended C7: the body with empty `name` and `about`. -/
theorem postProducts_empty_string_valid_witness :
    (prop emptyNameBody "name" = some (.str "") ∧ prop emptyNameBody "about" = some (.str "") ∧
      prop emptyNameBody "price" = some (.num (.finite 1)) ∧
      JsNumber.isPositive (.finite 1) = true ∧ (("" : String) = "" ∨ ("" : String) = "")) ∧
    (CreateProductSchema emptyNameBody
        = .ok { name := "", about := "", price := .finite 1 } ∧
     (∀ id, okEnv.insertOne = .ok id →
       (RestPostgres.postProducts okEnv shopDb emptyNameBody).res.status = 201 ∧
       (RestPostgres.postProducts okEnv shopDb emptyNameBody).db.products
         = shopDb.products ++ [{ _id := id, name := "", about := "", price := .finite 1 }]) ∧
     (∀ e, okEnv.insertOne = .error e →
       (RestPostgres.postProducts okEnv shopDb emptyNameBody).res.status = 500 ∧
       (RestPostgres.postProducts okEnv shopDb emptyNameBody).db = shopDb)) :=
  ⟨⟨rfl, rfl, rfl, by decide, Or.inl rfl⟩,
   postProducts_empty_string_valid okEnv shopDb emptyNameBody "" "" (.finite 1) rfl rfl rfl
     (by decide) (Or.inl rfl)⟩

/-! ## User creation -/

theorem textContains_refl (s : String) : textContains s s :=
  List.infix_refl _

theorem textContains_trans {a b c : String} (hab : textContains a b) (hbc : textContains b c) :
    textContains a c :=
  List.IsInfix.trans hbc hab

theorem textContains_append_left (a b : String) : textContains (a ++ b) a := by
  unfold textContains
  rw [String.toList, String.toList, String.data_append]
  exact List.infix_append' [] a.data b.data

theorem textContains_append_right (a b : String) : textContains (a ++ b) b := by
  unfold textContains
  rw [String.toList, String.toList, String.data_append]
  exact (List.suffix_append a.data b.data).isInfix

theorem textContains_joinWith (sep x : String) (xs : List String) (hx : x ∈ xs) :
    textContains (joinWith sep xs) x := by
  induction xs with
  | nil => simp at hx
  | cons y ys ih =>
    cases ys with
    | nil =>
      simp only [List.mem_singleton] at hx
      subst hx
      exact textContains_refl _
    | cons z zs =>
      rcases List.mem_cons.mp hx with rfl | hx
      · simp only [joinWith]
        exact textContains_trans (textContains_append_left _ _) (textContains_append_left _ _)
      · simp only [joinWith]
        exact textContains_trans (textContains_append_right _ _) (ih hx)

theorem path_mem_issueProps (i : ZodIssue) : ("path", IssueVal.path i.path) ∈ issueProps i := by
  cases i <;> simp [issueProps, ZodIssue.path]

theorem zodMessage_names_path (issues : List ZodIssue) (i : ZodIssue) (hi : i ∈ issues) :
    textContains (zodMessage issues) (propText ("path", .path i.path)) := by
  have h1 : textContains (issueText i) (propText ("path", .path i.path)) := by
    unfold issueText
    refine textContains_trans (textContains_append_left _ _) ?_
    refine textContains_trans (textContains_append_right _ _) ?_
    exact textContains_joinWith _ _ _ (List.mem_map_of_mem propText (path_mem_issueProps i))
  have h2 : textContains (zodMessage issues) (issueText i) := by
    cases issues with
    | nil => simp at hi
    | cons j js =>
      unfold zodMessage
      refine textContains_trans (textContains_append_left _ _) ?_
      refine textContains_trans (textContains_append_right _ _) ?_
      exact textContains_joinWith _ _ _ (List.mem_map_of_mem issueText hi)
  exact textContains_trans h2 h1

theorem zStringMin_error (n : Nat) (path : List PathSeg) (v : Option Json)
    (h : ∀ s, v = some (.str s) → jsLength s < n) :
    ∃ i, zStringMin n path v = .error [i] ∧ i.path = path := by
  unfold zStringMin
  split
  · rename_i s
    simp [h s rfl, ZodIssue.path]
  · exact ⟨_, rfl, rfl⟩

theorem createUserSchema_bad_password (isEmail : String → Bool) (kvs : List (String × Json))
    (h : ∀ s, field kvs "password" = some (.str s) → jsLength s < 6) :
    ∃ issues, CreateUserSchema isEmail (.obj kvs) = .error issues ∧
      ∃ i ∈ issues, i.path = [.key "password"] := by
  obtain ⟨i, hi, hpath⟩ := zStringMin_error 6 [.key "password"] (field kvs "password") h
  cases hu : zString [.key "username"] (field kvs "username") <;>
    cases he : zStringEmail isEmail [.key "email"] (field kvs "email") <;>
    simp only [CreateUserSchema, hu, hi, he, issuesOf, Except.error.injEq, exists_eq_left']
  · exact ⟨i, by simp, hpath⟩
  · exact ⟨i, by simp, hpath⟩
  · exact ⟨i, by simp, hpath⟩
  · exact ⟨i, by simp, hpath⟩

theorem createUserSchema_not_object (isEmail : String → Bool) (body : Json)
    (h : ∀ kvs, body ≠ .obj kvs) :
    ∃ issues, CreateUserSchema isEmail body = .error issues := by
  cases body with
  | obj kvs => exact absurd rfl (h kvs)
  | null => exact ⟨_, rfl⟩
  | bool b => exact ⟨_, rfl⟩
  | num q => exact ⟨_, rfl⟩
  | str s => exact ⟨_, rfl⟩
  | arr xs => exact ⟨_, rfl⟩

/-- C8, counterexample: the body `[]` has no password, and `POST /users`
answers 400, but the error detail is the text of a single issue at the root
path ("Expected object, received array"): it does not name the password
field. -/
theorem postUsers_array_body_names_no_field :
    (∀ s, prop arrayBody "password" ≠ some (.str s)) ∧
    (RestPostgres.postUsers okEnv shopDb arrayBody).res
      = ⟨400, .obj [("error", .str "Données invalides"),
          ("details", .str ("[\n  \x7b\n    \"code\": \"invalid_type\",\n" ++
            "    \"expected\": \"object\",\n    \"received\": \"array\",\n" ++
            "    \"path\": [],\n    \"message\": \"Expected object, received array\"\n" ++
            "  \x7d\n]"))]⟩ ∧
    ¬ textContains ("[\n  \x7b\n    \"code\": \"invalid_type\",\n" ++
            "    \"expected\": \"object\",\n    \"received\": \"array\",\n" ++
            "    \"path\": [],\n    \"message\": \"Expected object, received array\"\n" ++
            "  \x7d\n]") "password" := by
  refine ⟨by intro s; simp [arrayBody, prop], ?_, by decide⟩
  have hm : zodMessage [invalidType "object" [] (some arrayBody)]
      = "[\n  \x7b\n    \"code\": \"invalid_type\",\n" ++
            "    \"expected\": \"object\",\n    \"received\": \"array\",\n" ++
            "    \"path\": [],\n    \"message\": \"Expected object, received array\"\n" ++
            "  \x7d\n]" := by decide
  have hres : (RestPostgres.postUsers okEnv shopDb arrayBody).res
      = ⟨400, .obj [("error", .str "Données invalides"),
          ("details", .str (zodMessage [invalidType "object" [] (some arrayBody)]))]⟩ := rfl
  rw [hres, hm]

/-- C8, amended: a body whose `password` is missing, is not a string, or is
a string of fewer than 6 characters (UTF-16 code units, the `.length` the
schema compares) is answered 400 by `POST /users`; nothing is handed to
`bcrypt.hash` and the store is left as it was; the error detail is the JSON
text of the validation issues. When the body is an object, one of the
issues has the path `password` and the text contains the quoted name
`"password"`. -/
theorem postUsers_bad_password_rejected (env : Env) (db : Db) (body : Json)
    (h : ∀ s, prop body "password" = some (.str s) → jsLength s < 6) :
    (RestPostgres.postUsers env db body).res.status = 400 ∧
    (RestPostgres.postUsers env db body).db = db ∧
    (RestPostgres.postUsers env db body).hashed = [] ∧
    ∃ issues : List ZodIssue,
      (RestPostgres.postUsers env db body).res.body
        = .obj [("error", .str "Données invalides"), ("details", .str (zodMessage issues))] ∧
      ((∃ kvs, body = .obj kvs) →
        (∃ i ∈ issues, i.path = [.key "password"]) ∧
        textContains (zodMessage issues) "\"password\"") := by
  by_cases hobj : ∃ kvs, body = .obj kvs
  · obtain ⟨kvs, rfl⟩ := hobj
    obtain ⟨issues, hi, i, him, hpath⟩ := createUserSchema_bad_password env.isEmail kvs h
    refine ⟨by simp [RestPostgres.postUsers, hi], by simp [RestPostgres.postUsers, hi],
      by simp [RestPostgres.postUsers, hi], issues, by simp [RestPostgres.postUsers, hi],
      fun _ => ⟨⟨i, him, hpath⟩, ?_⟩⟩
    have hnamed := zodMessage_names_path issues i him
    rw [hpath] at hnamed
    exact textContains_trans hnamed (by decide)
  · obtain ⟨issues, hi⟩ := createUserSchema_not_object env.isEmail body
      (fun kvs hk => hobj ⟨kvs, hk⟩)
    exact ⟨by simp [RestPostgres.postUsers, hi], by simp [RestPostgres.postUsers, hi],
      by simp [RestPostgres.postUsers, hi], issues, by simp [RestPostgres.postUsers, hi],
      fun hk => absurd hk hobj⟩

/-- Witness of the amended C8: the object body with username "a" and
password "short". -/
theorem postUsers_bad_password_rejected_witness :
    ((∀ s, prop shortPasswordBody "password" = some (.str s) → jsLength s < 6) ∧
      (∃ kvs, shortPasswordBody = .obj kvs)) ∧
    ((RestPostgres.postUsers okEnv shopDb shortPasswordBody).res.status = 400 ∧
     (RestPostgres.postUsers okEnv shopDb shortPasswordBody).db = shopDb ∧
     (RestPostgres.postUsers okEnv shopDb shortPasswordBody).hashed = [] ∧
     ∃ issues : List ZodIssue,
       (RestPostgres.postUsers okEnv shopDb shortPasswordBody).res.body
         = .obj [("error", .str "Données invalides"),
                 ("details", .str (zodMessage issues))] ∧
       ((∃ kvs, shortPasswordBody = .obj kvs) →
         (∃ i ∈ issues, i.path = [.key "password"]) ∧
         textContains (zodMessage issues) "\"password\"")) :=
  have hyp : ∀ s, prop shortPasswordBody "password" = some (.str s) → jsLength s < 6 := by
    intro s hs
    simp [shortPasswordBody, prop, field, List.lookup] at hs
    subst hs
    decide
  ⟨⟨hyp, _, rfl⟩, postUsers_bad_password_rejected okEnv shopDb shortPasswordBody hyp⟩

/-! ## Orders -/

theorem objectIds_cons (x : Json) (xs : List Json) :
    objectIds (x :: xs) = .error "MongoClient.ObjectId is not a constructor" := by
  simp [objectIds, newObjectId]

theorem objectIds_ok (l : List Json) (ids : List ObjectId) (h : objectIds l = .ok ids) :
    l = [] ∧ ids = [] := by
  cases l with
  | nil =>
    simp only [objectIds, Except.ok.injEq] at h
    exact ⟨rfl, h.symm⟩
  | cons x xs => simp [objectIds_cons] at h

theorem postOrders_accepted (env : Env) (db : Db) (body : Json)
    (h : (RestPostgres.postOrders env db body).res.status = 201) :
    ∃ (parsed : CreateOrder) (id : ObjectId),
      CreateOrderSchema body = .ok parsed ∧
      parsed.productIds = [] ∧
      env.insertOne = .ok id ∧
      (RestPostgres.postOrders env db body).db.orders = db.orders ++
        [{ _id := id, userId := .str parsed.userId, productIds := [],
           total := .finite 0, payment := .bool false, createdAt := env.now,
           updatedAt := env.now }] := by
  unfold RestPostgres.postOrders at h ⊢
  cases hc : CreateOrderSchema body with
  | error issues => simp [hc] at h
  | ok parsed =>
    cases ho : objectIds (parsed.productIds.map Json.str) with
    | error e => simp [hc, ho] at h
    | ok ids =>
      obtain ⟨hnil, hids⟩ := objectIds_ok _ ids ho
      subst hids
      have hp : parsed.productIds = [] := by simpa using hnil
      cases hf : env.find with
      | error e => simp [hc, ho, hf] at h
      | ok u =>
        cases hi : env.insertOne with
        | error e => simp [hc, ho, hf, hi] at h
        | ok id =>
          refine ⟨parsed, id, rfl, hp, rfl, ?_⟩
          simp [hf, hi, hp, objectIds, onePointTwo, mul_zero_finite]

/-- C1: when `POST /orders` accepts a request (status 201), the order
appended to the collection has `total` equal to the sum of the prices of
the products of the collection whose identifier occurs in `productIds`,
multiplied by 1.2. Each such product is counted once (the value is the same
for `productIds` without repetitions), and the total is 0 when no
identifier resolves, in particular when `productIds` is empty. The
conversion of an identifier throws, so the accepted requests are those with
an empty `productIds`, and their total is 0. -/
theorem postOrders_total (env : Env) (db : Db) (body : Json)
    (h : (RestPostgres.postOrders env db body).res.status = 201) :
    ∃ (parsed : CreateOrder) (o : Order),
      CreateOrderSchema body = .ok parsed ∧
      (RestPostgres.postOrders env db body).db.orders = db.orders ++ [o] ∧
      o.productIds = parsed.productIds.map Json.str ∧
      o.total = JsNumber.mul
        (((db.products.filter (fun p => p._id ∈ parsed.productIds)).map
          (fun p => p.price)).foldl JsNumber.add (.finite 0)) onePointTwo ∧
      o.total = JsNumber.mul
        (((db.products.filter (fun p => p._id ∈ parsed.productIds.dedup)).map
          (fun p => p.price)).foldl JsNumber.add (.finite 0)) onePointTwo ∧
      ((∀ p ∈ db.products, p._id ∉ parsed.productIds) → o.total = .finite 0) ∧
      (parsed.productIds = [] → o.total = .finite 0) ∧
      parsed.productIds = [] := by
  obtain ⟨parsed, id, hc, hp, _, hdb⟩ := postOrders_accepted env db body h
  refine ⟨parsed, _, hc, hdb, by simp [hp], ?_, ?_, fun _ => rfl, fun _ => rfl, hp⟩
  · simp [hp, onePointTwo, mul_zero_finite]
  · simp [hp, onePointTwo, mul_zero_finite]

/-- Witness of C1: an order without products on the two-product store. -/
theorem postOrders_total_witness :
    (RestPostgres.postOrders okEnv shopDb emptyOrderBody).res.status = 201 ∧
    ∃ (parsed : CreateOrder) (o : Order),
      CreateOrderSchema emptyOrderBody = .ok parsed ∧
      (RestPostgres.postOrders okEnv shopDb emptyOrderBody).db.orders = shopDb.orders ++ [o] ∧
      o.productIds = parsed.productIds.map Json.str ∧
      o.total = JsNumber.mul
        (((shopDb.products.filter (fun p => p._id ∈ parsed.productIds)).map
          (fun p => p.price)).foldl JsNumber.add (.finite 0)) onePointTwo ∧
      o.total = JsNumber.mul
        (((shopDb.products.filter (fun p => p._id ∈ parsed.productIds.dedup)).map
          (fun p => p.price)).foldl JsNumber.add (.finite 0)) onePointTwo ∧
      ((∀ p ∈ shopDb.products, p._id ∉ parsed.productIds) → o.total = .finite 0) ∧
      (parsed.productIds = [] → o.total = .finite 0) ∧
      parsed.productIds = [] :=
  ⟨by decide, postOrders_total okEnv shopDb emptyOrderBody (by decide)⟩

/-- C2, the code at the worked example: the body with `userId` "u1" and
the identifiers of "Book" (10) and "Pen" (2), without `total`, fails
`CreateOrderSchema` on the missing `total`; `POST /orders` answers 400 and
stores no order. -/
theorem postOrders_without_total_rejected :
    CreateOrderSchema exampleOrderBody
      = .error [.invalidType "number" "undefined" [.key "total"] "Required"] ∧
    (RestPostgres.postOrders okEnv shopDb exampleOrderBody).res.status = 400 ∧
    (RestPostgres.postOrders okEnv shopDb exampleOrderBody).db.orders = [] := by
  refine ⟨rfl, by decide, rfl⟩

/-! ## Users: what the responses reveal, and failures of the storage layer -/

theorem getUsers_default (env : Env) (db : Db) (hf : env.find = .ok ()) :
    (RestPostgres.getUsers env db none none).res
      = ⟨200, .arr ((db.users.take 10).map userJson)⟩ := by
  simp [RestPostgres.getUsers, RestPostgres.skipCount, JsNumber.sub, JsNumber.add,
    JsNumber.neg, JsNumber.mul, roundDouble_zero, hf]

/-- C3, the code at two stores that differ only in the stored password
field of one user: `GET /users` (default page and limit) answers 200 with
the whole user documents, the stored digest included, so the two responses
differ. -/
theorem getUsers_exposes_digest :
    (RestPostgres.getUsers okEnv (userDb "$2b$10$digestA") none none).res.status = 200 ∧
    (RestPostgres.getUsers okEnv (userDb "$2b$10$digestA") none none).res.body
      = .arr [.obj [("_id", .str "65f00000000000000000000b"), ("username", .str "alice"),
                    ("password", .str "$2b$10$digestA"),
                    ("email", .str "alice@example.org")]] ∧
    (RestPostgres.getUsers okEnv (userDb "$2b$10$digestA") none none).res.body
      ≠ (RestPostgres.getUsers okEnv (userDb "$2b$10$digestB") none none).res.body := by
  have hA := getUsers_default okEnv (userDb "$2b$10$digestA") rfl
  have hB := getUsers_default okEnv (userDb "$2b$10$digestB") rfl
  rw [hA, hB]
  refine ⟨rfl, rfl, ?_⟩
  simp [userDb, userJson]

/-- C4, the code at requests that pass validation while a later step fails:
`POST /users` answers 400 when `insertOne` fails, `POST /orders` answers 400
when `find` fails or when `insertOne` fails, and `PUT /orders/:id` answers
400 when `updateOne` fails; the store is left as it was. `POST /products`
answers 500 on the same failure of `insertOne`. For `POST /orders` the body
without products passes validation and reaches the storage calls, whose
failure is answered 400 as well. -/
theorem storage_failure_answered_400 :
    (∃ parsed, CreateUserSchema insertFailsEnv.isEmail validUserBody = .ok parsed) ∧
    (RestPostgres.postUsers insertFailsEnv shopDb validUserBody).res.status = 400 ∧
    (RestPostgres.postUsers insertFailsEnv shopDb validUserBody).db.users = [] ∧
    (∃ parsed, CreateOrderSchema exampleOrderBodyWithTotal = .ok parsed) ∧
    (RestPostgres.postOrders findFailsEnv shopDb exampleOrderBodyWithTotal).res.status = 400 ∧
    (RestPostgres.postOrders insertFailsEnv shopDb exampleOrderBodyWithTotal).res.status
      = 400 ∧
    (RestPostgres.putOrder updateFailsEnv orderDb "65f00000000000000000000a" putBody).res.status
      = 400 ∧
    (RestPostgres.postProducts insertFailsEnv shopDb bookBody).res.status = 500 ∧
    (∃ parsed, CreateOrderSchema emptyOrderBody = .ok parsed) ∧
    (RestPostgres.postOrders findFailsEnv shopDb emptyOrderBody).res.status = 400 ∧
    (RestPostgres.postOrders insertFailsEnv shopDb emptyOrderBody).res.status = 400 := by
  refine ⟨⟨_, rfl⟩, by decide, rfl, ⟨_, rfl⟩, by decide, by decide, by decide, by decide,
    ⟨_, rfl⟩, by decide, by decide⟩

/-! ## Deleting and updating by identifier -/

theorem field_of_body (body : Json) (key : String) :
    field (match body with
      | .obj kvs => kvs
      | _ => []) key = prop body key := by
  cases body <;> simp [prop, field]

/-- C9, the code at every request: `DELETE /products/:id` and `DELETE
/orders/:id` convert the identifier with `new MongoClient.ObjectId(id)`,
which throws; the `catch` answers 500 and the store is left as it was. So
the identifier "65f000000000000000000009", which matches no stored product
and no stored order, is answered 500 and not 404, and the identifier of the
stored product "Book" is answered 500 with the product still stored. -/
theorem delete_always_answers_500 :
    (∀ (env : Env) (db : Db) (id : String),
      (RestPostgres.deleteProduct env db id).res.status = 500 ∧
      (RestPostgres.deleteProduct env db id).db = db ∧
      (RestPostgres.deleteOrder env db id).res.status = 500 ∧
      (RestPostgres.deleteOrder env db id).db = db) ∧
    (∀ p ∈ orderDb.products, p._id ≠ "65f000000000000000000009") ∧
    (∀ o ∈ orderDb.orders, o._id ≠ "65f000000000000000000009") ∧
    (RestPostgres.deleteProduct okEnv orderDb "65f000000000000000000009").res.status = 500 ∧
    (RestPostgres.deleteOrder okEnv orderDb "65f000000000000000000009").res.status = 500 ∧
    (RestPostgres.deleteProduct okEnv orderDb "65f000000000000000000001").res.status = 500 ∧
    (RestPostgres.deleteProduct okEnv orderDb "65f000000000000000000001").db.products
      = bookAndPen := by
  refine ⟨fun env db id => ⟨rfl, rfl, rfl, rfl⟩, by decide, by decide, rfl, rfl, rfl, rfl⟩

/-- C10, the code at every request: `PUT /orders/:id` converts the product
identifiers and the identifier of the route with `new
MongoClient.ObjectId`, which throws (and `productIds.map` throws when
`productIds` is not an array); the `catch` answers 400 and the store is
left as it was. So the update of the stored order
"65f00000000000000000000a" with the identifiers of "Book" and "Pen" is
answered 400: no total is recomputed and `updatedAt` stays 1000. -/
theorem putOrder_always_answers_400 :
    (∀ (env : Env) (db : Db) (id : String) (body : Json),
      (RestPostgres.putOrder env db id body).res.status = 400 ∧
      (RestPostgres.putOrder env db id body).db = db) ∧
    (RestPostgres.putOrder okEnv orderDb "65f00000000000000000000a" putBody).res.status = 400 ∧
    (RestPostgres.putOrder okEnv orderDb "65f00000000000000000000a" putBody).db.orders.map
      (fun o => (o._id, o.updatedAt)) = [("65f00000000000000000000a", 1000)] := by
  refine ⟨?_, by decide, by decide⟩
  intro env db id body
  unfold RestPostgres.putOrder
  simp only [field_of_body]
  cases hp : prop body "productIds" with
  | none => exact ⟨rfl, rfl⟩
  | some v =>
    cases v with
    | arr pids =>
      cases pids with
      | nil =>
        cases hf : env.find with
        | error e => simp [objectIds, hf]
        | ok u => simp [objectIds, hf, newObjectId]
      | cons x xs => simp [objectIds_cons]
    | null => exact ⟨rfl, rfl⟩
    | bool b => exact ⟨rfl, rfl⟩
    | num q => exact ⟨rfl, rfl⟩
    | str s => exact ⟨rfl, rfl⟩
    | obj kvs => exact ⟨rfl, rfl⟩

end AteliersWebServices
